import Mathlib

/-!
Verification development for the taskly backend
(`backend/server.js`, SQLite variant, and `backend/server-pg.js`,
Postgres variant).  The per-user cache, the audit-log helper and the five
task handlers are embedded as pure state-passing functions; time
(`Date.now()` / `CURRENT_TIMESTAMP`) and freshly generated uuids enter as
explicit parameters.
-/

namespace Taskly

/-- Row of the `tasks` table (`CREATE TABLE tasks` in `backend/server.js`):
id TEXT PRIMARY KEY, user_id, title, status TEXT (default 'TODO'),
created_at, updated_at.  Timestamps are modelled as naturals
(milliseconds). -/
structure Task where
  id : String
  user_id : String
  title : String
  status : String
  created_at : Nat
  updated_at : Nat
deriving DecidableEq

/-- Projection returned by
`SELECT id, title, status, created_at, updated_at FROM tasks ...`
in the list handler (the `user_id` column is not selected). -/
structure Row where
  id : String
  title : String
  status : String
  created_at : Nat
  updated_at : Nat
deriving DecidableEq

/-- Projection of a stored task to a selected row. -/
def Task.toRow (t : Task) : Row :=
  ⟨t.id, t.title, t.status, t.created_at, t.updated_at⟩

/-- A cache entry as stored by `setCachedTasks`: `\x7b ts: Date.now(), tasks \x7d`. -/
structure CacheEntry where
  ts : Nat
  tasks : List Row
deriving DecidableEq

/-- Row of the `logs` table as inserted by `persistLog`; `body` is the
serialized JSON text, or SQL NULL (`none`) when serialization failed. -/
structure LogRec where
  method : String
  path : String
  user_id : Option String
  body : Option String
deriving DecidableEq

/-- Model of a JavaScript value passed to `persistLog` as the audit body.
`plain s` is a value that `JSON.stringify` serializes to the text `s`;
`unserializable` is a value on which `JSON.stringify` throws (for example
a circular object or a BigInt). -/
inductive JsObj
  | plain (s : String)
  | unserializable
deriving DecidableEq

/-- `safeJsonString` (`backend/server.js` line 72): `JSON.stringify` in a
try/catch, returning `null` on a serialization failure. -/
def safeJsonString : JsObj → Option String
  | .plain s => some s
  | .unserializable => none

/-- Kinds of externally visible actions a handler performs, in program
order: a store read (SELECT), a store mutation (INSERT/UPDATE/DELETE), a
cache invalidation, an audit-log emission attempt. -/
inductive Event
  | storeRead
  | storeMutate
  | cacheInvalidate
  | auditEmit
deriving DecidableEq

/-- The mutable server state: the `tasks` table (in insertion order), the
in-memory `cache` Map, the hit/miss counters and the `logs` table. -/
structure SState where
  store : List Task
  cache : List (String × CacheEntry)
  cacheHits : Nat
  cacheMisses : Nat
  logs : List LogRec
deriving DecidableEq

/-- `cache.get(userId)` on the JavaScript Map, modelled on an association
list (at most one live entry per key in every reachable state). -/
def lookupCache (c : List (String × CacheEntry)) (u : String) : Option CacheEntry :=
  (c.find? (fun p => p.1 == u)).map (fun p => p.2)

/-- `CACHE_TTL_MS = 30 * 1000` (`backend/server.js` line 105). -/
def CACHE_TTL_MS : Nat := 30 * 1000

/-- `getCachedTasks` (`backend/server.js` lines 108-117): returns the
cached rows and bumps the hit counter when an entry exists and
`now - entry.ts < CACHE_TTL_MS`; otherwise bumps the miss counter and
returns `null`. -/
def getCachedTasks (now : Nat) (u : String) (st : SState) :
    Option (List Row) × SState :=
  match lookupCache st.cache u with
  | some e =>
    if now - e.ts < CACHE_TTL_MS then
      (some e.tasks, { st with cacheHits := st.cacheHits + 1 })
    else
      (none, { st with cacheMisses := st.cacheMisses + 1 })
  | none => (none, { st with cacheMisses := st.cacheMisses + 1 })

/-- `setCachedTasks` (`backend/server.js` lines 118-120):
`cache.set(userId, \x7b ts: Date.now(), tasks \x7d)`.  Map.set replaces any
existing entry for the key; on the association list this is modelled by
dropping any old entry for `u` and consing the new one. -/
def setCachedTasks (now : Nat) (u : String) (tasks : List Row) (st : SState) :
    SState :=
  { st with cache := (u, ⟨now, tasks⟩) :: st.cache.filter (fun p => p.1 != u) }

/-- `invalidateCache` (`backend/server.js` line 121): `cache.delete(userId)`. -/
def invalidateCache (u : String) (st : SState) : SState :=
  { st with cache := st.cache.filter (fun p => p.1 != u) }

/-- `persistLog` (`backend/server.js` lines 93-99): serializes the body
with `safeJsonString` and INSERTs a row into `logs`.  A storage failure of
the INSERT (`auditFails = true`) only reaches `console.error`; the state
visible to the caller keeps its previous `logs` and nothing is thrown. -/
def persistLog (auditFails : Bool) (method path : String) (userId : Option String)
    (body : JsObj) (st : SState) : SState :=
  if auditFails then st
  else { st with logs := st.logs ++ [⟨method, path, userId, safeJsonString body⟩] }

/-- A JSON value appearing in a handler response body. -/
inductive JVal
  | s (v : String)
  | b (v : Bool)
  | n (v : Nat)
  | rows (v : List Row)
deriving DecidableEq

/-- An HTTP response: status code plus the JSON object sent, as the
ordered field list of the object literal in the source. -/
structure Response where
  code : Nat
  body : List (String × JVal)
deriving DecidableEq

/-- Result of running one handler: the response, the server state after
the handler, and the ordered trace of store/cache/audit actions it
performed. -/
structure Outcome where
  resp : Response
  state : SState
  trace : List Event
deriving DecidableEq

/-- Model of JavaScript `String.prototype.trim()`: strip whitespace from
both ends of the string.  Defined by structural recursion on the
character list so that it evaluates definitionally (core `String.trim`
recurses on byte positions by well-founded recursion, which does not
reduce in the kernel). -/
def jsTrim (s : String) : String :=
  ⟨((s.data.dropWhile Char.isWhitespace).reverse.dropWhile Char.isWhitespace).reverse⟩

/-- Success branch of `POST /api/tasks` (`backend/server.js` lines
184-192): INSERT the task with the trimmed title and status `TODO`,
invalidate the user's cache entry, persist the audit row, and respond
with `\x7b id, user_id, title, status \x7d` where `title` is the caller's raw
title (the SQLite variant echoes the untrimmed input and sends no
`created_at`). -/
def createTaskOk (auditFails : Bool) (now : Nat) (newId userId : String)
    (t : String) (st : SState) : Outcome :=
  let st1 := { st with store := st.store ++ [⟨newId, userId, jsTrim t, "TODO", now, now⟩] }
  let st2 := invalidateCache userId st1
  let st3 := persistLog auditFails "POST" "/api/tasks" (some userId) (.plain t) st2
  ⟨⟨200, [("id", .s newId), ("user_id", .s userId), ("title", .s t), ("status", .s "TODO")]⟩,
    st3, [.storeMutate, .cacheInvalidate, .auditEmit]⟩

/-- `POST /api/tasks` (`backend/server.js` lines 179-193).  `title` is
`none` when the request body has no string title; the validation
`!title || typeof title !== 'string' || title.trim().length === 0`
rejects with 400 before any side effect. -/
def createTask (auditFails : Bool) (now : Nat) (newId userId : String)
    (title : Option String) (st : SState) : Outcome :=
  match title with
  | none => ⟨⟨400, [("error", .s "title required")]⟩, st, []⟩
  | some t =>
    if jsTrim t = "" then ⟨⟨400, [("error", .s "title required")]⟩, st, []⟩
    else createTaskOk auditFails now newId userId t st

/-- `POST /api/tasks` of the Postgres variant (`backend/server-pg.js`
lines 147-166).  Identical validation and side effects; the response is
`r.rows[0]` of `INSERT ... RETURNING id, user_id, title, status,
created_at`, so it carries the trimmed title and the creation
timestamp. -/
def createTaskPg (auditFails : Bool) (now : Nat) (newId userId : String)
    (title : Option String) (st : SState) : Outcome :=
  match title with
  | none => ⟨⟨400, [("error", .s "title required")]⟩, st, []⟩
  | some t =>
    if jsTrim t = "" then ⟨⟨400, [("error", .s "title required")]⟩, st, []⟩
    else
      let st1 := { st with store := st.store ++ [⟨newId, userId, jsTrim t, "TODO", now, now⟩] }
      let st2 := invalidateCache userId st1
      let st3 := persistLog auditFails "POST" "/api/tasks" (some userId) (.plain t) st2
      ⟨⟨200, [("id", .s newId), ("user_id", .s userId), ("title", .s (jsTrim t)),
              ("status", .s "TODO"), ("created_at", .n now)]⟩,
        st3, [.storeMutate, .cacheInvalidate, .auditEmit]⟩

/-- The rows of one user's tasks as the list handler's SELECT projects
them, in table (insertion) order before sorting. -/
def userRows (store : List Task) (u : String) : List Row :=
  (store.filter (fun t => t.user_id == u)).map Task.toRow

/-- Semantics of
`SELECT id, title, status, created_at, updated_at FROM tasks WHERE
user_id = ? ORDER BY created_at DESC`:
any permutation of the user's rows that is sorted by `created_at`
descending.  SQL leaves the relative order of rows with equal
`created_at` unspecified (the query has no secondary sort key), so the
result is a relation, not a function, of the store. -/
def IsTaskListResult (store : List Task) (u : String) (rows : List Row) : Prop :=
  rows.Perm (userRows store u) ∧
    rows.Pairwise (fun a b => b.created_at ≤ a.created_at)

/-- The query relation is decidable, so concrete instances can be settled
by evaluation. -/
instance (store : List Task) (u : String) (rows : List Row) :
    Decidable (IsTaskListResult store u rows) := by
  unfold IsTaskListResult; infer_instance

/-- Continuation of `GET /api/tasks` after a cache miss, from the point
where the SELECT's rows are available (`backend/server.js` lines
204-212): populate the cache with exactly the returned rows, persist the
audit row, respond `\x7b cached: false, tasks: rows \x7d`. -/
def listMissCont (auditFails : Bool) (now : Nat) (userId : String)
    (dbRows : List Row) (st : SState) : Outcome :=
  let st2 := setCachedTasks now userId dbRows st
  let st3 := persistLog auditFails "GET" "/api/tasks" (some userId) (.plain "\x7b\x7d") st2
  ⟨⟨200, [("cached", .b false), ("tasks", .rows dbRows)]⟩,
    st3, [.storeRead, .auditEmit]⟩

/-- `GET /api/tasks` (`backend/server.js` lines 196-213) run without
interleaving: consult the cache; on a hit, audit with the `(cached)`
path marker and return the snapshot; on a miss, run `listMissCont` on
the rows `dbRows` the SELECT produced. -/
def listTasks (auditFails : Bool) (now : Nat) (userId : String)
    (dbRows : List Row) (st : SState) : Outcome :=
  match getCachedTasks now userId st with
  | (some cached, st1) =>
    let st2 := persistLog auditFails "GET" "/api/tasks (cached)" (some userId)
      (.plain "\x7b\x7d") st1
    ⟨⟨200, [("cached", .b true), ("tasks", .rows cached)]⟩, st2, [.auditEmit]⟩
  | (none, st1) => listMissCont auditFails now userId dbRows st1

/-- The status whitelist of the status handler:
`['TODO','IN_PROGRESS','DONE'].includes(status)`. -/
def VALID_STATUSES : List String := ["TODO", "IN_PROGRESS", "DONE"]

/-- Success branch of `PATCH /api/tasks/:id/status` (`backend/server.js`
lines 227-233): `UPDATE tasks SET status = ?, updated_at = now WHERE
id = ?` (the UPDATE filters by id only), invalidate, audit, respond
`\x7b id, status \x7d`. -/
def updateStatusOk (auditFails : Bool) (now : Nat) (userId taskId s : String)
    (st : SState) : Outcome :=
  let st1 := { st with store := st.store.map (fun t =>
    if t.id = taskId then { t with status := s, updated_at := now } else t) }
  let st2 := invalidateCache userId st1
  let st3 := persistLog auditFails "PATCH" ("/api/tasks/" ++ taskId ++ "/status")
    (some userId) (.plain s) st2
  ⟨⟨200, [("id", .s taskId), ("status", .s s)]⟩,
    st3, [.storeRead, .storeMutate, .cacheInvalidate, .auditEmit]⟩

/-- `PATCH /api/tasks/:id/status` (`backend/server.js` lines 216-235):
validate the status against the whitelist (400), check existence and
ownership with `SELECT id FROM tasks WHERE id = ? AND user_id = ?`
(404 on no row), then run the success branch. -/
def updateStatus (auditFails : Bool) (now : Nat) (userId taskId : String)
    (status : Option String) (st : SState) : Outcome :=
  match status with
  | none => ⟨⟨400, [("error", .s "invalid status")]⟩, st, []⟩
  | some s =>
    if VALID_STATUSES.contains s then
      match st.store.find? (fun t => t.id == taskId && t.user_id == userId) with
      | none => ⟨⟨404, [("error", .s "task not found")]⟩, st, [.storeRead]⟩
      | some _ => updateStatusOk auditFails now userId taskId s st
    else ⟨⟨400, [("error", .s "invalid status")]⟩, st, []⟩

/-- Success branch of `PATCH /api/tasks/:id` (`backend/server.js` lines
248-253): `UPDATE tasks SET title = trim(title), updated_at = now WHERE
id = ?`, invalidate, audit, respond `\x7b id, title \x7d` where `title` is the
caller's raw (untrimmed) input. -/
def editTitleOk (auditFails : Bool) (now : Nat) (userId taskId t : String)
    (st : SState) : Outcome :=
  let st1 := { st with store := st.store.map (fun x =>
    if x.id = taskId then { x with title := jsTrim t, updated_at := now } else x) }
  let st2 := invalidateCache userId st1
  let st3 := persistLog auditFails "PATCH" ("/api/tasks/" ++ taskId)
    (some userId) (.plain t) st2
  ⟨⟨200, [("id", .s taskId), ("title", .s t)]⟩,
    st3, [.storeRead, .storeMutate, .cacheInvalidate, .auditEmit]⟩

/-- `PATCH /api/tasks/:id` (`backend/server.js` lines 238-255): the
validation `!title || typeof title !== 'string'` rejects a missing,
non-string or empty title with 400 (a whitespace-only title passes);
then the same ownership SELECT as the status handler (404), then the
success branch. -/
def editTitle (auditFails : Bool) (now : Nat) (userId taskId : String)
    (title : Option String) (st : SState) : Outcome :=
  match title with
  | none => ⟨⟨400, [("error", .s "title required")]⟩, st, []⟩
  | some t =>
    if t = "" then ⟨⟨400, [("error", .s "title required")]⟩, st, []⟩
    else
      match st.store.find? (fun x => x.id == taskId && x.user_id == userId) with
      | none => ⟨⟨404, [("error", .s "task not found")]⟩, st, [.storeRead]⟩
      | some _ => editTitleOk auditFails now userId taskId t st

/-- `DELETE /api/tasks/:id` (`backend/server.js` lines 258-268):
`DELETE FROM tasks WHERE id = ? AND user_id = ?`; if `this.changes === 0`
respond 404 with the store untouched, else invalidate, audit and respond
`\x7b success: true \x7d`. -/
def deleteTask (auditFails : Bool) (userId taskId : String) (st : SState) : Outcome :=
  let remaining := st.store.filter (fun t => !(t.id == taskId && t.user_id == userId))
  if remaining.length = st.store.length then
    ⟨⟨404, [("error", .s "not found")]⟩, st, [.storeMutate]⟩
  else
    let st1 := { st with store := remaining }
    let st2 := invalidateCache userId st1
    let st3 := persistLog auditFails "DELETE" ("/api/tasks/" ++ taskId)
      (some userId) (.plain "\x7b\x7d") st2
    ⟨⟨200, [("success", .b true)]⟩, st3, [.storeMutate, .cacheInvalidate, .auditEmit]⟩

/-- The four mutating operations of the task service. -/
inductive Mutation
  | create (newId : String) (title : Option String)
  | setStatus (taskId : String) (status : Option String)
  | retitle (taskId : String) (title : Option String)
  | remove (taskId : String)
deriving DecidableEq

/-- Dispatch one mutating operation for user `userId` at time `now`. -/
def applyMutation (auditFails : Bool) (now : Nat) (userId : String) :
    Mutation → SState → Outcome
  | .create i t, st => createTask auditFails now i userId t st
  | .setStatus tid s, st => updateStatus auditFails now userId tid s st
  | .retitle tid t, st => editTitle auditFails now userId tid t st
  | .remove tid, st => deleteTask auditFails userId tid st

end Taskly

namespace Taskly

/-- A storage failure in `persistLog` (or a success) never changes the cache. -/
theorem persistLog_cache (af : Bool) (m p : String) (uid : Option String)
    (b : JsObj) (st : SState) : (persistLog af m p uid b st).cache = st.cache := by
  unfold persistLog; split <;> rfl

/-- A storage failure in `persistLog` (or a success) never changes the store. -/
theorem persistLog_store (af : Bool) (m p : String) (uid : Option String)
    (b : JsObj) (st : SState) : (persistLog af m p uid b st).store = st.store := by
  unfold persistLog; split <;> rfl

/-- After `invalidateCache u`, the cache holds no entry for `u`. -/
theorem lookupCache_invalidate (u : String) (st : SState) :
    lookupCache (invalidateCache u st).cache u = none := by
  unfold lookupCache invalidateCache
  simp [List.find?_eq_none, List.mem_filter]

/-- After `setCachedTasks now u tasks`, the cache entry for `u` is
exactly `(now, tasks)`. -/
theorem lookupCache_setCachedTasks (now : Nat) (u : String) (tasks : List Row)
    (st : SState) :
    lookupCache (setCachedTasks now u tasks st).cache u = some ⟨now, tasks⟩ := by
  unfold lookupCache setCachedTasks
  simp

/-- When the cache map has no entry for `u`, `getCachedTasks` is a miss. -/
theorem getCachedTasks_of_lookup_none (now : Nat) (u : String) (st : SState)
    (h : lookupCache st.cache u = none) :
    getCachedTasks now u st = (none, { st with cacheMisses := st.cacheMisses + 1 }) := by
  unfold getCachedTasks
  rw [h]

/-- Whenever `getCachedTasks` reports a miss, its whole result — including
the state, which gets exactly one miss-counter bump — is the same whether
the entry was missing or expired. -/
theorem getCachedTasks_fst_none (now : Nat) (u : String) (st : SState)
    (h : (getCachedTasks now u st).1 = none) :
    getCachedTasks now u st = (none, { st with cacheMisses := st.cacheMisses + 1 }) := by
  rcases hl : lookupCache st.cache u with _ | e
  · exact getCachedTasks_of_lookup_none now u st hl
  · unfold getCachedTasks at h ⊢
    rw [hl] at h ⊢
    dsimp only at h ⊢
    by_cases ht : now - e.ts < CACHE_TTL_MS
    · rw [if_pos ht] at h; simp at h
    · rw [if_neg ht]

/-- A `GET /api/tasks` that finds no cache entry runs the miss
continuation on the miss-bumped state. -/
theorem listTasks_of_lookup_none (af : Bool) (now : Nat) (u : String)
    (rows : List Row) (st : SState) (h : lookupCache st.cache u = none) :
    listTasks af now u rows st =
      listMissCont af now u rows { st with cacheMisses := st.cacheMisses + 1 } := by
  unfold listTasks
  rw [getCachedTasks_of_lookup_none now u st h]

/-- Every successful mutation leaves the cache without an entry for the
mutating user: each success branch runs `invalidateCache` and the
subsequent `persistLog` does not touch the cache. -/
theorem applyMutation_success_cache (af : Bool) (now : Nat) (u : String)
    (m : Mutation) (st : SState)
    (h : (applyMutation af now u m st).resp.code = 200) :
    lookupCache (applyMutation af now u m st).state.cache u = none := by
  cases m with
  | create i t =>
    cases t with
    | none => simp [applyMutation, createTask] at h
    | some s =>
      simp only [applyMutation, createTask] at h ⊢
      by_cases hs : jsTrim s = ""
      · rw [if_pos hs] at h; simp at h
      · rw [if_neg hs]
        simp [createTaskOk, persistLog_cache, lookupCache_invalidate]
  | setStatus tid s =>
    cases s with
    | none => simp [applyMutation, updateStatus] at h
    | some v =>
      simp only [applyMutation, updateStatus] at h ⊢
      by_cases hv : VALID_STATUSES.contains v = true
      · rw [if_pos hv] at h ⊢
        rcases hf : st.store.find? (fun t => t.id == tid && t.user_id == u) with _ | w
        · rw [hf] at h; simp at h
        · rw [hf]
          simp [updateStatusOk, persistLog_cache, lookupCache_invalidate]
      · rw [if_neg hv] at h; simp at h
  | retitle tid t =>
    cases t with
    | none => simp [applyMutation, editTitle] at h
    | some s =>
      simp only [applyMutation, editTitle] at h ⊢
      by_cases hs : s = ""
      · rw [if_pos hs] at h; simp at h
      · rw [if_neg hs] at h ⊢
        rcases hf : st.store.find? (fun x => x.id == tid && x.user_id == u) with _ | w
        · rw [hf] at h; simp at h
        · rw [hf]
          simp [editTitleOk, persistLog_cache, lookupCache_invalidate]
  | remove tid =>
    simp only [applyMutation, deleteTask] at h ⊢
    by_cases hl : (st.store.filter (fun t => !(t.id == tid && t.user_id == u))).length
        = st.store.length
    · rw [if_pos hl] at h; simp at h
    · rw [if_neg hl]
      simp [persistLog_cache, lookupCache_invalidate]

end Taskly

namespace Taskly

/-- C2: cache get semantics with TTL.  `getCachedTasks` returns the
stored snapshot if and only if an entry exists for the user and `now`
minus its capture timestamp is strictly below the 30-second TTL
(`CACHE_TTL_MS = 30000` milliseconds); on every miss — whether the entry
is missing or expired — it produces the identical result: no snapshot and
exactly one miss-counter bump on an otherwise unchanged state. -/
theorem c2_cache_get_ttl (now : Nat) (u : String) (st : SState) :
    CACHE_TTL_MS = 30000
    ∧ (∀ tasks, (getCachedTasks now u st).1 = some tasks ↔
        ∃ e, lookupCache st.cache u = some e ∧ now - e.ts < CACHE_TTL_MS ∧ tasks = e.tasks)
    ∧ ((getCachedTasks now u st).1 = none →
        getCachedTasks now u st = (none, { st with cacheMisses := st.cacheMisses + 1 })) := by
  refine ⟨rfl, ?_, getCachedTasks_fst_none now u st⟩
  intro tasks
  unfold getCachedTasks
  rcases hl : lookupCache st.cache u with _ | e
  · simp
  · by_cases ht : now - e.ts < CACHE_TTL_MS
    · simp [ht, eq_comm]
    · simp [ht]

/-- Witness for C2: in a state whose cache holds an entry for alice
captured at 100, a get at 29100 (inside the TTL) returns the snapshot. -/
theorem c2_cache_get_ttl_witness :
    ∃ e, lookupCache ((⟨[], [("alice", ⟨100, [⟨"t1", "m", "TODO", 10, 10⟩]⟩)], 0, 0, []⟩ :
        SState)).cache "alice" = some e
      ∧ 29100 - e.ts < CACHE_TTL_MS ∧ ([⟨"t1", "m", "TODO", 10, 10⟩] : List Row) = e.tasks :=
  ((c2_cache_get_ttl 29100 "alice"
      ⟨[], [("alice", ⟨100, [⟨"t1", "m", "TODO", 10, 10⟩]⟩)], 0, 0, []⟩).2.1
    [⟨"t1", "m", "TODO", 10, 10⟩]).mp (by decide)

/-- C9: invalidation idempotence.  Invalidating twice equals invalidating
once, after an invalidation the cache has no entry for the user, and
invalidating a user with no entry is a no-op returning the state
unchanged (`Map.delete` never errors). -/
theorem c9_invalidate_idempotent (u : String) (st : SState) :
    invalidateCache u (invalidateCache u st) = invalidateCache u st
    ∧ lookupCache (invalidateCache u st).cache u = none
    ∧ (lookupCache st.cache u = none → invalidateCache u st = st) := by
  refine ⟨?_, lookupCache_invalidate u st, ?_⟩
  · have h2 : (st.cache.filter (fun p => p.1 != u)).filter (fun p => p.1 != u)
        = st.cache.filter (fun p => p.1 != u) :=
      List.filter_eq_self.mpr (fun q hq => (List.mem_filter.mp hq).2)
    unfold invalidateCache
    dsimp only
    rw [h2]
  · intro h
    have hf : st.cache.find? (fun p => p.1 == u) = none := by
      unfold lookupCache at h
      exact Option.map_eq_none'.mp h
    have h2 : st.cache.filter (fun p => p.1 != u) = st.cache :=
      List.filter_eq_self.mpr (fun p hp => by
        have hne := List.find?_eq_none.mp hf p hp
        simpa [bne] using hne)
    unfold invalidateCache
    rw [h2]

/-- Witness for C9: invalidating a user with no cache entry leaves the
empty state untouched. -/
theorem c9_invalidate_idempotent_witness :
    invalidateCache "bob" (⟨[], [], 0, 0, []⟩ : SState) = ⟨[], [], 0, 0, []⟩ :=
  (c9_invalidate_idempotent "bob" ⟨[], [], 0, 0, []⟩).2.2 (by decide)

/-- C6: title validation.  createTask rejects a missing, empty or
whitespace-only title, and editTitle rejects a missing or empty title,
each with the 400 validation response, an unchanged state and an empty
action trace — no store mutation, no cache invalidation, no audit
record precedes the rejection. -/
theorem c6_title_validation (af : Bool) (now : Nat) (nid u tid : String)
    (tc te : Option String) (st : SState)
    (hc : ∀ s, tc = some s → jsTrim s = "")
    (he : ∀ s, te = some s → s = "") :
    createTask af now nid u tc st = ⟨⟨400, [("error", .s "title required")]⟩, st, []⟩
    ∧ editTitle af now u tid te st = ⟨⟨400, [("error", .s "title required")]⟩, st, []⟩ := by
  constructor
  · cases tc with
    | none => rfl
    | some s =>
      unfold createTask
      dsimp only
      rw [if_pos (hc s rfl)]
  · cases te with
    | none => rfl
    | some s =>
      unfold editTitle
      dsimp only
      rw [if_pos (he s rfl)]

/-- Witness for C6: a whitespace-only create title and an empty edit
title are both rejected with no side effect on the empty state. -/
theorem c6_title_validation_witness :
    createTask false 5 "i" "u" (some "   ") (⟨[], [], 0, 0, []⟩ : SState)
      = ⟨⟨400, [("error", .s "title required")]⟩, ⟨[], [], 0, 0, []⟩, []⟩
    ∧ editTitle false 5 "u" "t1" (some "") (⟨[], [], 0, 0, []⟩ : SState)
      = ⟨⟨400, [("error", .s "title required")]⟩, ⟨[], [], 0, 0, []⟩, []⟩ :=
  c6_title_validation false 5 "i" "u" "t1" (some "   ") (some "") ⟨[], [], 0, 0, []⟩
    (fun s hs => by cases hs; decide) (fun s hs => by cases hs; rfl)

end Taskly

namespace Taskly

/-- C5: ownership isolation.  For users `u1 ≠ u2` and a task `t` owned by
`u1` (with the PRIMARY KEY guarantee that `t` is the only task with its
id), updateStatus, editTitle and deleteTask invoked by `u2` on `t`'s id —
with otherwise valid inputs — all return the same 404 not-found response
produced for a truly absent id, and leave the state completely
unchanged. -/
theorem c5_ownership_isolation (af : Bool) (now : Nat) (u1 u2 tid s ttl : String)
    (t : Task) (st : SState)
    (hne : u1 ≠ u2) (ht : t ∈ st.store) (hid : t.id = tid) (hown : t.user_id = u1)
    (huniq : ∀ t' ∈ st.store, t'.id = tid → t' = t)
    (hs : s ∈ VALID_STATUSES) (httl : ttl ≠ "") :
    updateStatus af now u2 tid (some s) st
      = ⟨⟨404, [("error", .s "task not found")]⟩, st, [.storeRead]⟩
    ∧ editTitle af now u2 tid (some ttl) st
      = ⟨⟨404, [("error", .s "task not found")]⟩, st, [.storeRead]⟩
    ∧ deleteTask af u2 tid st
      = ⟨⟨404, [("error", .s "not found")]⟩, st, [.storeMutate]⟩ := by
  have hnomatch : ∀ t' ∈ st.store, ¬((t'.id == tid && t'.user_id == u2) = true) := by
    intro t' ht' hcontra
    simp only [Bool.and_eq_true, beq_iff_eq] at hcontra
    have hEq := huniq t' ht' hcontra.1
    subst hEq
    exact hne (hown.symm.trans hcontra.2)
  have hfind : st.store.find? (fun t' => t'.id == tid && t'.user_id == u2) = none :=
    List.find?_eq_none.mpr hnomatch
  have hcontains : VALID_STATUSES.contains s = true := List.elem_eq_true_of_mem hs
  refine ⟨?_, ?_, ?_⟩
  · unfold updateStatus
    dsimp only
    rw [if_pos hcontains, hfind]
  · unfold editTitle
    dsimp only
    rw [if_neg httl, hfind]
  · have hdel : st.store.filter (fun x => !(x.id == tid && x.user_id == u2)) = st.store :=
      List.filter_eq_self.mpr (fun x hx => by
        show (!(x.id == tid && x.user_id == u2)) = true
        rw [Bool.eq_false_iff.mpr (hnomatch x hx)]
        rfl)
    unfold deleteTask
    dsimp only
    rw [if_pos (by rw [hdel])]

/-- Witness for C5: bob's mutations on alice's task all come back 404 and
change nothing. -/
theorem c5_ownership_isolation_witness :
    updateStatus false 20 "bob" "t1" (some "DONE")
        (⟨[⟨"t1", "alice", "m", "TODO", 10, 10⟩], [], 0, 0, []⟩ : SState)
      = ⟨⟨404, [("error", .s "task not found")]⟩,
          ⟨[⟨"t1", "alice", "m", "TODO", 10, 10⟩], [], 0, 0, []⟩, [.storeRead]⟩
    ∧ editTitle false 20 "bob" "t1" (some "x")
        (⟨[⟨"t1", "alice", "m", "TODO", 10, 10⟩], [], 0, 0, []⟩ : SState)
      = ⟨⟨404, [("error", .s "task not found")]⟩,
          ⟨[⟨"t1", "alice", "m", "TODO", 10, 10⟩], [], 0, 0, []⟩, [.storeRead]⟩
    ∧ deleteTask false "bob" "t1"
        (⟨[⟨"t1", "alice", "m", "TODO", 10, 10⟩], [], 0, 0, []⟩ : SState)
      = ⟨⟨404, [("error", .s "not found")]⟩,
          ⟨[⟨"t1", "alice", "m", "TODO", 10, 10⟩], [], 0, 0, []⟩, [.storeMutate]⟩ :=
  c5_ownership_isolation false 20 "alice" "bob" "t1" "DONE" "x"
    ⟨"t1", "alice", "m", "TODO", 10, 10⟩ ⟨[⟨"t1", "alice", "m", "TODO", 10, 10⟩], [], 0, 0, []⟩
    (by decide) (by decide) rfl rfl (by decide) (by decide) (by decide)

/-- C7 counterexample: in the SQLite backend a createTask with a valid
title succeeds (code 200) yet its response object has no `created_at`
field, contradicting the claimed success output shape. -/
theorem c7_counterexample :
    (createTask false 7 "id1" "alice" (some "buy milk")
        (⟨[], [], 0, 0, []⟩ : SState)).resp.code = 200
    ∧ ((createTask false 7 "id1" "alice" (some "buy milk")
        (⟨[], [], 0, 0, []⟩ : SState)).resp.body.find? (fun p => p.1 == "created_at"))
      = none := by decide

/-- C7 amended: for every valid title a successful createTask responds
with id, user_id, title and status TODO; the Postgres variant
additionally returns `created_at` (and the trimmed title), while the
SQLite variant omits `created_at` and echoes the raw title. -/
theorem c7_create_response (af : Bool) (now : Nat) (nid u : String) (s : String)
    (st : SState) (hv : jsTrim s ≠ "") :
    (createTask af now nid u (some s) st).resp
      = ⟨200, [("id", .s nid), ("user_id", .s u), ("title", .s s), ("status", .s "TODO")]⟩
    ∧ (createTaskPg af now nid u (some s) st).resp
      = ⟨200, [("id", .s nid), ("user_id", .s u), ("title", .s (jsTrim s)),
               ("status", .s "TODO"), ("created_at", .n now)]⟩ := by
  constructor
  · unfold createTask
    dsimp only
    rw [if_neg hv]
    rfl
  · unfold createTaskPg
    dsimp only
    rw [if_neg hv]

/-- Witness for C7 (amended): concrete successful creation on both
variants. -/
theorem c7_create_response_witness :
    (createTask false 7 "id1" "alice" (some "buy milk")
        (⟨[], [], 0, 0, []⟩ : SState)).resp
      = ⟨200, [("id", .s "id1"), ("user_id", .s "alice"), ("title", .s "buy milk"),
               ("status", .s "TODO")]⟩
    ∧ (createTaskPg false 7 "id1" "alice" (some "buy milk")
        (⟨[], [], 0, 0, []⟩ : SState)).resp
      = ⟨200, [("id", .s "id1"), ("user_id", .s "alice"), ("title", .s (jsTrim "buy milk")),
               ("status", .s "TODO"), ("created_at", .n 7)]⟩ :=
  c7_create_response false 7 "id1" "alice" "buy milk" ⟨[], [], 0, 0, []⟩ (by decide)

end Taskly

namespace Taskly

/-- Whether the audit INSERT fails or succeeds changes neither the
response nor the store nor the cache of any mutating operation; only the
`logs` component can differ. -/
theorem applyMutation_audit_immaterial (now : Nat) (u : String) (mu : Mutation)
    (st : SState) :
    (applyMutation true now u mu st).resp = (applyMutation false now u mu st).resp
    ∧ (applyMutation true now u mu st).state.store
      = (applyMutation false now u mu st).state.store
    ∧ (applyMutation true now u mu st).state.cache
      = (applyMutation false now u mu st).state.cache := by
  cases mu with
  | create i t =>
    cases t with
    | none => exact ⟨rfl, rfl, rfl⟩
    | some s =>
      unfold applyMutation createTask createTaskOk
      dsimp only
      by_cases hs : jsTrim s = ""
      · rw [if_pos hs, if_pos hs]
        exact ⟨rfl, rfl, rfl⟩
      · rw [if_neg hs, if_neg hs]
        refine ⟨rfl, ?_, ?_⟩
        · rw [persistLog_store, persistLog_store]
        · rw [persistLog_cache, persistLog_cache]
  | setStatus tid sOpt =>
    cases sOpt with
    | none => exact ⟨rfl, rfl, rfl⟩
    | some v =>
      unfold applyMutation updateStatus updateStatusOk
      dsimp only
      by_cases hv : VALID_STATUSES.contains v = true
      · rw [if_pos hv, if_pos hv]
        rcases hf : st.store.find? (fun t => t.id == tid && t.user_id == u) with _ | w
        · rw [hf]
          exact ⟨rfl, rfl, rfl⟩
        · rw [hf]
          refine ⟨rfl, ?_, ?_⟩
          · rw [persistLog_store, persistLog_store]
          · rw [persistLog_cache, persistLog_cache]
      · rw [if_neg hv, if_neg hv]
        exact ⟨rfl, rfl, rfl⟩
  | retitle tid tOpt =>
    cases tOpt with
    | none => exact ⟨rfl, rfl, rfl⟩
    | some s =>
      unfold applyMutation editTitle editTitleOk
      dsimp only
      by_cases hs : s = ""
      · rw [if_pos hs, if_pos hs]
        exact ⟨rfl, rfl, rfl⟩
      · rw [if_neg hs, if_neg hs]
        rcases hf : st.store.find? (fun x => x.id == tid && x.user_id == u) with _ | w
        · rw [hf]
          exact ⟨rfl, rfl, rfl⟩
        · rw [hf]
          refine ⟨rfl, ?_, ?_⟩
          · rw [persistLog_store, persistLog_store]
          · rw [persistLog_cache, persistLog_cache]
  | remove tid =>
    unfold applyMutation deleteTask
    dsimp only
    by_cases hl : (st.store.filter (fun t => !(t.id == tid && t.user_id == u))).length
        = st.store.length
    · rw [if_pos hl, if_pos hl]
      exact ⟨rfl, rfl, rfl⟩
    · rw [if_neg hl, if_neg hl]
      refine ⟨rfl, ?_, ?_⟩
      · rw [persistLog_store, persistLog_store]
      · rw [persistLog_cache, persistLog_cache]

/-- An audit-storage failure does not change the response of the list
handler either. -/
theorem listTasks_audit_immaterial (now : Nat) (u : String) (rows : List Row)
    (st : SState) :
    (listTasks true now u rows st).resp = (listTasks false now u rows st).resp := by
  unfold listTasks
  rcases h : getCachedTasks now u st with ⟨o, st1⟩
  cases o <;> rfl

/-- C8: audit is best-effort and non-propagating.  A body on which
serialization throws is logged with a null payload instead of failing the
`persistLog` call, and an audit-storage failure never changes the
caller-visible outcome (response) nor the consistency state (store and
cache) of any operation. -/
theorem c8_audit_best_effort (m p : String) (uid : Option String)
    (now : Nat) (u : String) (mu : Mutation) (rows : List Row) (st : SState) :
    persistLog false m p uid .unserializable st
      = { st with logs := st.logs ++ [⟨m, p, uid, none⟩] }
    ∧ (applyMutation true now u mu st).resp = (applyMutation false now u mu st).resp
    ∧ (applyMutation true now u mu st).state.store
      = (applyMutation false now u mu st).state.store
    ∧ (applyMutation true now u mu st).state.cache
      = (applyMutation false now u mu st).state.cache
    ∧ (listTasks true now u rows st).resp = (listTasks false now u rows st).resp := by
  have h := applyMutation_audit_immaterial now u mu st
  exact ⟨rfl, h.1, h.2.1, h.2.2, listTasks_audit_immaterial now u rows st⟩

/-- C3: per-operation ordering.  Every successful mutating operation
performs, in order, the store mutation, then the cache invalidation,
then the audit emission (preceded for updateStatus and editTitle by the
ownership-check read) — so the mutation precedes the invalidation and
the invalidation precedes the audit record. -/
theorem c3_mutate_invalidate_audit (af : Bool) (now : Nat) (u : String)
    (m : Mutation) (st : SState)
    (h : (applyMutation af now u m st).resp.code = 200) :
    ∃ k, (applyMutation af now u m st).trace
      = List.replicate k Event.storeRead
        ++ [Event.storeMutate, Event.cacheInvalidate, Event.auditEmit] := by
  cases m with
  | create i t =>
    cases t with
    | none => simp [applyMutation, createTask] at h
    | some s =>
      simp only [applyMutation, createTask] at h ⊢
      by_cases hs : jsTrim s = ""
      · rw [if_pos hs] at h; simp at h
      · rw [if_neg hs]
        exact ⟨0, rfl⟩
  | setStatus tid sOpt =>
    cases sOpt with
    | none => simp [applyMutation, updateStatus] at h
    | some v =>
      simp only [applyMutation, updateStatus] at h ⊢
      by_cases hv : VALID_STATUSES.contains v = true
      · rw [if_pos hv] at h ⊢
        rcases hf : st.store.find? (fun t => t.id == tid && t.user_id == u) with _ | w
        · rw [hf] at h; simp at h
        · rw [hf]
          exact ⟨1, rfl⟩
      · rw [if_neg hv] at h; simp at h
  | retitle tid tOpt =>
    cases tOpt with
    | none => simp [applyMutation, editTitle] at h
    | some s =>
      simp only [applyMutation, editTitle] at h ⊢
      by_cases hs : s = ""
      · rw [if_pos hs] at h; simp at h
      · rw [if_neg hs] at h ⊢
        rcases hf : st.store.find? (fun x => x.id == tid && x.user_id == u) with _ | w
        · rw [hf] at h; simp at h
        · rw [hf]
          exact ⟨1, rfl⟩
  | remove tid =>
    simp only [applyMutation, deleteTask] at h ⊢
    by_cases hl : (st.store.filter (fun t => !(t.id == tid && t.user_id == u))).length
        = st.store.length
    · rw [if_pos hl] at h; simp at h
    · rw [if_neg hl]
      exact ⟨0, rfl⟩

/-- Witness for C3: a concrete successful status update emits the read,
mutate, invalidate, audit trace in that order. -/
theorem c3_mutate_invalidate_audit_witness :
    ∃ k, (applyMutation false 20 "alice" (.setStatus "t1" (some "DONE"))
        (⟨[⟨"t1", "alice", "m", "TODO", 10, 10⟩], [], 0, 0, []⟩ : SState)).trace
      = List.replicate k Event.storeRead
        ++ [Event.storeMutate, Event.cacheInvalidate, Event.auditEmit] :=
  c3_mutate_invalidate_audit false 20 "alice" (.setStatus "t1" (some "DONE"))
    ⟨[⟨"t1", "alice", "m", "TODO", 10, 10⟩], [], 0, 0, []⟩ (by decide)

end Taskly

namespace Taskly

/-- C4 counterexample: for a store holding two tasks of one user with
equal `created_at`, the code's query — `ORDER BY created_at DESC` with no
secondary key — admits two distinct result sequences, and the list
handler returns and caches whichever the engine produced, so no
guaranteed (insertion-stable) total order exists. -/
theorem c4_counterexample :
    IsTaskListResult
      [⟨"a", "u", "first", "TODO", 5, 5⟩, ⟨"b", "u", "second", "TODO", 5, 5⟩] "u"
      [⟨"a", "first", "TODO", 5, 5⟩, ⟨"b", "second", "TODO", 5, 5⟩]
    ∧ IsTaskListResult
      [⟨"a", "u", "first", "TODO", 5, 5⟩, ⟨"b", "u", "second", "TODO", 5, 5⟩] "u"
      [⟨"b", "second", "TODO", 5, 5⟩, ⟨"a", "first", "TODO", 5, 5⟩]
    ∧ ([⟨"a", "first", "TODO", 5, 5⟩, ⟨"b", "second", "TODO", 5, 5⟩] : List Row)
      ≠ [⟨"b", "second", "TODO", 5, 5⟩, ⟨"a", "first", "TODO", 5, 5⟩]
    ∧ (listTasks false 9 "u" [⟨"a", "first", "TODO", 5, 5⟩, ⟨"b", "second", "TODO", 5, 5⟩]
        (⟨[⟨"a", "u", "first", "TODO", 5, 5⟩, ⟨"b", "u", "second", "TODO", 5, 5⟩],
          [], 0, 0, []⟩ : SState)).resp
      ≠ (listTasks false 9 "u" [⟨"b", "second", "TODO", 5, 5⟩, ⟨"a", "first", "TODO", 5, 5⟩]
        (⟨[⟨"a", "u", "first", "TODO", 5, 5⟩, ⟨"b", "u", "second", "TODO", 5, 5⟩],
          [], 0, 0, []⟩ : SState)).resp := by decide

/-- C4 amended: on a cache miss, listTasks returns the rows the query
produced — a permutation of the user's tasks sorted by `created_at`
descending, the relative order of equal timestamps being undetermined —
tagged `cached: false`, and populates the user's cache entry with exactly
that sequence. -/
theorem c4_list_order_and_populate (af : Bool) (now : Nat) (u : String)
    (rows : List Row) (st : SState)
    (hmiss : (getCachedTasks now u st).1 = none)
    (hrows : IsTaskListResult st.store u rows) :
    (listTasks af now u rows st).resp
      = ⟨200, [("cached", .b false), ("tasks", .rows rows)]⟩
    ∧ lookupCache (listTasks af now u rows st).state.cache u = some ⟨now, rows⟩
    ∧ rows.Perm (userRows st.store u)
    ∧ rows.Pairwise (fun a b => b.created_at ≤ a.created_at) := by
  have heq := getCachedTasks_fst_none now u st hmiss
  unfold listTasks
  rw [heq]
  dsimp only
  refine ⟨rfl, ?_, hrows.1, hrows.2⟩
  unfold listMissCont
  dsimp only
  rw [persistLog_cache]
  exact lookupCache_setCachedTasks now u rows _

/-- Witness for C4 (amended): a concrete miss populates the cache with
the returned single row. -/
theorem c4_list_order_and_populate_witness :
    (listTasks false 20 "alice" [⟨"t1", "m", "TODO", 10, 10⟩]
        (⟨[⟨"t1", "alice", "m", "TODO", 10, 10⟩], [], 0, 0, []⟩ : SState)).resp
      = ⟨200, [("cached", .b false), ("tasks", .rows [⟨"t1", "m", "TODO", 10, 10⟩])]⟩
    ∧ lookupCache (listTasks false 20 "alice" [⟨"t1", "m", "TODO", 10, 10⟩]
        (⟨[⟨"t1", "alice", "m", "TODO", 10, 10⟩], [], 0, 0, []⟩ : SState)).state.cache "alice"
      = some ⟨20, [⟨"t1", "m", "TODO", 10, 10⟩]⟩
    ∧ ([⟨"t1", "m", "TODO", 10, 10⟩] : List Row).Perm
        (userRows [⟨"t1", "alice", "m", "TODO", 10, 10⟩] "alice")
    ∧ ([⟨"t1", "m", "TODO", 10, 10⟩] : List Row).Pairwise
        (fun a b => b.created_at ≤ a.created_at) :=
  c4_list_order_and_populate false 20 "alice" [⟨"t1", "m", "TODO", 10, 10⟩]
    ⟨[⟨"t1", "alice", "m", "TODO", 10, 10⟩], [], 0, 0, []⟩ (by decide) (by decide)

end Taskly

namespace Taskly

/-- C1 amended: every successful mutation removes the user's cache entry,
so a listTasks that runs in full strictly after the mutation's success —
with no interleaved request — misses the cache and returns the rows
queried from the post-mutation store, tagged `cached: false`. -/
theorem c1_read_after_write_sequential (af af2 : Bool) (now now2 : Nat)
    (u : String) (m : Mutation) (st : SState) (rows : List Row)
    (hsucc : (applyMutation af now u m st).resp.code = 200)
    (_hrows : IsTaskListResult (applyMutation af now u m st).state.store u rows) :
    lookupCache (applyMutation af now u m st).state.cache u = none
    ∧ (listTasks af2 now2 u rows (applyMutation af now u m st).state).resp
      = ⟨200, [("cached", .b false), ("tasks", .rows rows)]⟩ := by
  have hc := applyMutation_success_cache af now u m st hsucc
  refine ⟨hc, ?_⟩
  rw [listTasks_of_lookup_none af2 now2 u rows _ hc]
  rfl

/-- Witness for C1 (amended): after a concrete successful status update,
the cache is empty for alice and a full listTasks returns the updated
row from the store. -/
theorem c1_read_after_write_sequential_witness :
    lookupCache (applyMutation false 20 "alice" (.setStatus "t1" (some "DONE"))
        (⟨[⟨"t1", "alice", "m", "TODO", 10, 10⟩], [("alice", ⟨10, []⟩)], 0, 0, []⟩ :
          SState)).state.cache "alice" = none
    ∧ (listTasks false 25 "alice" [⟨"t1", "m", "DONE", 10, 20⟩]
        (applyMutation false 20 "alice" (.setStatus "t1" (some "DONE"))
          (⟨[⟨"t1", "alice", "m", "TODO", 10, 10⟩], [("alice", ⟨10, []⟩)], 0, 0, []⟩ :
            SState)).state).resp
      = ⟨200, [("cached", .b false), ("tasks", .rows [⟨"t1", "m", "DONE", 10, 20⟩])]⟩ :=
  c1_read_after_write_sequential false false 20 25 "alice" (.setStatus "t1" (some "DONE"))
    ⟨[⟨"t1", "alice", "m", "TODO", 10, 10⟩], [("alice", ⟨10, []⟩)], 0, 0, []⟩
    [⟨"t1", "m", "DONE", 10, 20⟩] (by decide) (by decide)

/-- Initial state of the stale-repopulation interleaving: alice owns one
TODO task, the cache is empty. -/
def raceSt0 : SState := ⟨[⟨"t1", "alice", "buy milk", "TODO", 10, 10⟩], [], 0, 0, []⟩

/-- State after an in-flight `GET /api/tasks` has consulted the cache (a
miss) but before its SELECT's rows are consumed — the point where the
Postgres handler suspends on `await client.query`. -/
def raceSt1 : SState := (getCachedTasks 100 "alice" raceSt0).2

/-- The rows the in-flight GET's SELECT produced, computed from the
pre-mutation store. -/
def raceRows : List Row := userRows raceSt0.store "alice"

/-- A status mutation for alice that commits — and invalidates — while
the GET is suspended. -/
def raceMut : Outcome := updateStatus false 150 "alice" "t1" (some "DONE") raceSt1

/-- State after the suspended GET resumes and caches its pre-mutation
rows, after the mutation's invalidation already happened. -/
def raceSt3 : SState := (listMissCont false 100 "alice" raceRows raceMut.state).state

/-- A fresh listTasks issued strictly after the mutation's success. -/
def raceFinal : Outcome := listTasks false 205 "alice" (userRows raceSt3.store "alice") raceSt3

/-- C1 counterexample: in the interleaving where a concurrent
`GET /api/tasks` reads the store before the mutation commits and
populates the cache after the mutation's invalidation, a listTasks
issued strictly after the mutation's success returns the pre-mutation
snapshot (every returned row still shows TODO) even though every stored
task is DONE — the claimed read-after-write guarantee fails. -/
theorem c1_counterexample :
    raceMut.resp.code = 200
    ∧ IsTaskListResult raceSt1.store "alice" raceRows
    ∧ raceFinal.resp.body = [("cached", .b true), ("tasks", .rows raceRows)]
    ∧ (∀ r ∈ raceRows, r.status = "TODO")
    ∧ (∀ t ∈ raceSt3.store, t.status = "DONE") := by decide

/-- C10: editTitle echoes the caller's raw title in its 200 response
while the store receives the trimmed title; it also invalidates the
user's cache entry, so the next listTasks is a cache miss, and every
query result over the updated store shows the trimmed title for that
task — different from the echoed one whenever the title has leading or
trailing whitespace. -/
theorem c10_edit_title_echo (af : Bool) (now : Nat) (u tid s : String)
    (t : Task) (st : SState)
    (hws : jsTrim s ≠ s) (hne : s ≠ "")
    (ht : t ∈ st.store) (hid : t.id = tid) (hown : t.user_id = u) :
    (editTitle af now u tid (some s) st).resp
      = ⟨200, [("id", .s tid), ("title", .s s)]⟩
    ∧ lookupCache (editTitle af now u tid (some s) st).state.cache u = none
    ∧ (∀ rows, IsTaskListResult (editTitle af now u tid (some s) st).state.store u rows →
        ∀ r ∈ rows, r.id = tid → r.title = jsTrim s)
    ∧ jsTrim s ≠ s := by
  have hpred : (t.id == tid && t.user_id == u) = true := by
    simp [hid, hown]
  rcases hf : st.store.find? (fun x => x.id == tid && x.user_id == u) with _ | w
  · exact absurd hpred (List.find?_eq_none.mp hf t ht)
  · have hrun : editTitle af now u tid (some s) st = editTitleOk af now u tid s st := by
      unfold editTitle
      dsimp only
      rw [if_neg hne, hf]
    have hstore : (editTitleOk af now u tid s st).state.store
        = st.store.map (fun x =>
            if x.id = tid then { x with title := jsTrim s, updated_at := now } else x) := by
      unfold editTitleOk
      dsimp only
      rw [persistLog_store]
      rfl
    refine ⟨by rw [hrun]; rfl, ?_, ?_, hws⟩
    · rw [hrun]
      unfold editTitleOk
      dsimp only
      rw [persistLog_cache]
      exact lookupCache_invalidate u _
    · intro rows hrows r hr hrid
      have hmem : r ∈ userRows (editTitle af now u tid (some s) st).state.store u :=
        hrows.1.subset hr
      rw [hrun, hstore] at hmem
      unfold userRows at hmem
      rcases List.mem_map.mp hmem with ⟨x, hxf, hxr⟩
      rcases List.mem_map.mp (List.mem_filter.mp hxf).1 with ⟨y, _, hyx⟩
      by_cases hyid : y.id = tid
      · rw [if_pos hyid] at hyx
        rw [← hxr, ← hyx]
        rfl
      · rw [if_neg hyid] at hyx
        exfalso
        apply hyid
        have : x.id = tid := by
          have hxid : (Task.toRow x).id = r.id := by rw [hxr]
          simpa [Task.toRow, hrid] using hxid
        rw [← hyx] at this
        exact this

/-- Witness for C10: editing alice's task title to a padded string echoes
the padded string but stores and lists the trimmed one. -/
theorem c10_edit_title_echo_witness :
    (editTitle false 20 "alice" "t1" (some " milk ")
        (⟨[⟨"t1", "alice", "m", "TODO", 10, 10⟩], [], 0, 0, []⟩ : SState)).resp
      = ⟨200, [("id", .s "t1"), ("title", .s " milk ")]⟩
    ∧ lookupCache (editTitle false 20 "alice" "t1" (some " milk ")
        (⟨[⟨"t1", "alice", "m", "TODO", 10, 10⟩], [], 0, 0, []⟩ : SState)).state.cache "alice"
      = none
    ∧ (∀ rows, IsTaskListResult (editTitle false 20 "alice" "t1" (some " milk ")
          (⟨[⟨"t1", "alice", "m", "TODO", 10, 10⟩], [], 0, 0, []⟩ : SState)).state.store
          "alice" rows →
        ∀ r ∈ rows, r.id = "t1" → r.title = jsTrim " milk ")
    ∧ jsTrim " milk " ≠ " milk " :=
  c10_edit_title_echo false 20 "alice" "t1" " milk "
    ⟨"t1", "alice", "m", "TODO", 10, 10⟩
    ⟨[⟨"t1", "alice", "m", "TODO", 10, 10⟩], [], 0, 0, []⟩
    (by decide) (by decide) (by decide) rfl rfl

end Taskly
